import Mathlib

/-!
Verification of the two agent tools of this repository:

* the code-execution tool (`analyzeTool.execute` in the unnamed source
  file): it runs a Python script via `spawnSync("python", ["-c", "import
  sys; exec(sys.stdin.read())"], { input, encoding, timeout: 10_000,
  maxBuffer: 10 * 1024 * 1024 })` and shapes the outcome into a result
  object;
* the forecast-fetch tool (`weatherTool.execute` in
  `src/lib/tools/weather.ts`): it validates its parameters with a zod
  schema, issues one HTTP GET to the Open-Meteo forecast endpoint and
  reshapes the JSON body.

The subprocess spawn and the HTTP fetch are external effects; each is
modelled as an explicit outcome value handed to the (otherwise pure)
tool body, so every tool body becomes a total Lean function from its
validated input and the environment outcome to the returned result.
-/

namespace SoranoTools

/-- Error value that Node's `spawnSync` places in `result.error` when the
process failed to spawn, timed out (`code = "ETIMEDOUT"`), or exceeded
`maxBuffer` (`code = "ENOBUFS"`): a code string and a message string. -/
structure SpawnError where
  code : String
  message : String
deriving DecidableEq, Repr

/-- Outcome of the `spawnSync` call in `analyzeTool.execute`: the optional
`error` object, the optional exit `status` (null when the child was killed
by a signal or never ran), and the captured `stdout` / `stderr` texts
(strings, because the call passes `encoding: "utf-8"`). -/
structure SpawnOutcome where
  error : Option SpawnError
  status : Option Int
  stdout : String
  stderr : String
deriving DecidableEq, Repr

/-- The result object `analyzeTool.execute` returns: each field of the
JS object is optional because the failure shapes omit it. -/
structure ExecResult where
  stdout : Option String
  stderr : Option String
  exitCode : Option Int
  error : Option String
deriving DecidableEq, Repr

/-- Body of `analyzeTool.execute` (unnamed source file, lines 59–102),
as a function of the `spawnSync` outcome.  Mirrors the source branch for
branch: `result.error` with code `"ETIMEDOUT"` gives the timeout shape;
any other `result.error` gives `Execution failed: <message>`; otherwise
`result.status !== 0` gives the non-zero-exit shape with
`result.stderr || "Unknown error occurred"` and `result.status ?? -1`,
and the remaining case returns stdout/stderr/exit status unmodified.
The `catch` block of the source is unreachable here: with the spawn
outcome supplied as a value, the body performs no throwing operation. -/
def analyzeExecute (result : SpawnOutcome) : ExecResult :=
  match result.error with
  | some e =>
    if e.code = "ETIMEDOUT" then
      { stdout := none, stderr := none, exitCode := none,
        error := some "Execution timed out (limit: 10 seconds)" }
    else
      { stdout := none, stderr := none, exitCode := none,
        error := some ("Execution failed: " ++ e.message) }
  | none =>
    if result.status ≠ some 0 then
      { stdout := some result.stdout,
        stderr := some (if result.stderr = "" then "Unknown error occurred" else result.stderr),
        exitCode := some (result.status.getD (-1)),
        error := some "Python script exited with error" }
    else
      { stdout := some result.stdout,
        stderr := some result.stderr,
        exitCode := some (result.status.getD 0),
        error := none }

/-- A spawn outcome reporting that the 10-second wall-clock timeout
elapsed: Node sets `result.error` with `code = "ETIMEDOUT"`. -/
def SpawnOutcome.timedOut (o : SpawnOutcome) : Prop :=
  ∃ m, o.error = some ⟨"ETIMEDOUT", m⟩

/-- A spawn outcome reporting that the combined output exceeded the
10 MiB `maxBuffer` ceiling: Node kills the child and sets `result.error`
with `code = "ENOBUFS"`. -/
def SpawnOutcome.bufferExceeded (o : SpawnOutcome) : Prop :=
  ∃ m, o.error = some ⟨"ENOBUFS", m⟩

/-! ## Forecast-fetch tool (`src/lib/tools/weather.ts`) -/

/-- `DEFAULT_DAILY_VARS` from `weather.ts`: the five-variable default
set of daily weather variables. -/
def DEFAULT_DAILY_VARS : List String :=
  ["temperature_2m_max", "temperature_2m_min", "precipitation_sum",
   "windspeed_10m_max", "weathercode"]

/-- The enum accepted by the `daily` schema field in `weather.ts`
(`z.enum([...])`); textually the same five names as the default set. -/
def WEATHER_VAR_ENUM : List String := DEFAULT_DAILY_VARS

/-- Raw (pre-validation) argument object for the weather tool; `none`
models an absent (`undefined`) property.  Numbers are modelled as
rationals; arguments of a non-number JSON type are rejected by zod
before any range check and are not modelled. -/
structure RawWeatherInput where
  latitude : Option ℚ
  longitude : Option ℚ
  forecast_days : Option ℚ
  daily : Option (List String)
deriving DecidableEq, Repr

/-- Validated weather-tool input, as produced by the zod schema:
coordinates in range, `forecast_days` an integer in `[1, 7]` (the schema
default 3 already applied), `daily` still optional. -/
structure WeatherInput where
  latitude : ℚ
  longitude : ℚ
  forecast_days : ℤ
  daily : Option (List String)
deriving DecidableEq, Repr

/-- The zod schema `weatherTool.parameters` (`weather.ts`, lines 53–87):
`latitude` required in `[-90, 90]`, `longitude` required in
`[-180, 180]`, `forecast_days` an integer in `[1, 7]` defaulting to 3
when absent, `daily` an optional array over `WEATHER_VAR_ENUM`.
Validation happens before `execute` runs; on failure the tool body is
never entered. -/
def parseWeatherParams (r : RawWeatherInput) : Except String WeatherInput :=
  match r.latitude with
  | none => .error "latitude: Required"
  | some lat =>
    if lat < -90 ∨ 90 < lat then .error "latitude: out of range" else
    match r.longitude with
    | none => .error "longitude: Required"
    | some lon =>
      if lon < -180 ∨ 180 < lon then .error "longitude: out of range" else
      if (r.forecast_days.getD 3).den ≠ 1 then .error "forecast_days: Expected integer" else
      if r.forecast_days.getD 3 < 1 ∨ 7 < r.forecast_days.getD 3 then
        .error "forecast_days: out of range" else
      match r.daily with
      | none => .ok ⟨lat, lon, (r.forecast_days.getD 3).num, none⟩
      | some vars =>
        if vars.all (fun v => v ∈ WEATHER_VAR_ENUM) then
          .ok ⟨lat, lon, (r.forecast_days.getD 3).num, some vars⟩
        else .error "daily: Invalid enum value"

/-- The effective daily-variable list chosen at the top of
`weatherTool.execute`:
`daily && daily.length > 0 ? daily : DEFAULT_DAILY_VARS`. -/
def effectiveDailyVars (daily : Option (List String)) : List String :=
  match daily with
  | some l => if l.length > 0 then l else DEFAULT_DAILY_VARS
  | none => DEFAULT_DAILY_VARS

/-- The query parameters handed to `URLSearchParams` for the single GET
to `https://api.open-meteo.com/v1/forecast`: latitude, longitude,
forecast-day count, the fixed `timezone=auto`, and the comma-joined
daily-variable list. -/
structure ForecastQuery where
  latitude : ℚ
  longitude : ℚ
  forecast_days : ℤ
  timezone : String
  daily : String
deriving DecidableEq, Repr

/-- The JSON body of a successful provider response, as far as the tool
reads it: the optional `daily_units` and `daily` fields, of an abstract
JSON-value type `α` (the tool passes them through unparsed). `none`
models the field being absent or null (`?? null` in the source). -/
structure ApiBody (α : Type) where
  daily_units : Option α
  daily : Option α
deriving DecidableEq, Repr

/-- Outcome of the `fetch` call and subsequent `response.json()`:
either the fetch (or `json()`) rejected with a thrown value — an `Error`
carrying a message, or a non-`Error` value — or a response arrived with
its `ok` flag (true exactly for 2xx statuses), status, status text, and
a body that parses to an `ApiBody` or fails as malformed JSON with an
`Error` message. -/
inductive FetchOutcome (α : Type) where
  | thrownError (msg : String)
  | thrownNonError
  | response (ok : Bool) (status : ℕ) (statusText : String)
      (body : Except String (ApiBody α))
deriving Repr

/-- The `query` object echoed inside a successful weather result. -/
structure EchoedQuery where
  latitude : ℚ
  longitude : ℚ
  forecast_days : ℤ
  daily : List String
deriving DecidableEq, Repr

/-- The object `weatherTool.execute` returns: the success shape
`{source, query, units, daily}` (with `units` / `daily` possibly null)
or the failure shape `{error}`. -/
inductive WeatherResult (α : Type) where
  | ok (source : String) (query : EchoedQuery) (units : Option α) (daily : Option α)
  | err (msg : String)
deriving DecidableEq, Repr

/-- Body of `weatherTool.execute` (`weather.ts`, lines 88–136) as a
function of the validated input and the fetch outcome.  It returns the
list of forecast queries issued (the trace of GET requests) together
with the result object.  Mirroring the source: the effective variable
list is chosen, the query is built (so exactly one GET is issued in
every case), a non-ok response throws
`Weather API error: <status> <statusText>`, and the catch block turns a
thrown `Error` into its message and any other thrown value into
`Checking weather failed due to an unknown error.`. -/
def weatherExecute (α : Type) (v : WeatherInput) (outcome : FetchOutcome α) :
    List ForecastQuery × WeatherResult α :=
  let dailyVars := effectiveDailyVars v.daily
  let q : ForecastQuery :=
    ⟨v.latitude, v.longitude, v.forecast_days, "auto",
     String.intercalate "," dailyVars⟩
  match outcome with
  | .thrownError msg => ([q], .err msg)
  | .thrownNonError => ([q], .err "Checking weather failed due to an unknown error.")
  | .response ok status statusText body =>
    if ok = false then
      ([q], .err ("Weather API error: " ++ toString status ++ " " ++ statusText))
    else
      match body with
      | .error msg => ([q], .err msg)
      | .ok data =>
        ([q], .ok "open-meteo"
          ⟨v.latitude, v.longitude, v.forecast_days, dailyVars⟩
          data.daily_units data.daily)

/-- The whole weather tool as the orchestrator sees it: zod validation
first; only on success does the tool body run (and fetch).  The first
component is the trace of GET requests issued, empty when validation
rejects. -/
def runWeatherTool (α : Type) (r : RawWeatherInput) (outcome : FetchOutcome α) :
    List ForecastQuery × Except String (WeatherResult α) :=
  match parseWeatherParams r with
  | .error e => ([], .error e)
  | .ok v =>
    let res := weatherExecute α v outcome
    (res.1, .ok res.2)

/-- A fetch outcome on which the source's try block does not reach the
success return: a rejected fetch, a thrown non-`Error`, a non-2xx
response, or malformed JSON. -/
def FetchOutcome.isFailure {α : Type} : FetchOutcome α → Prop
  | .thrownError _ => True
  | .thrownNonError => True
  | .response ok _ _ body => ok = false ∨ ∃ m, body = .error m

instance {α : Type} (o : FetchOutcome α) : Decidable o.isFailure := by
  cases o with
  | thrownError m => exact .isTrue trivial
  | thrownNonError => exact .isTrue trivial
  | response ok status statusText body =>
    cases body with
    | error m => exact .isTrue (Or.inr ⟨m, rfl⟩)
    | ok b =>
      cases ok with
      | false => exact .isTrue (Or.inl rfl)
      | true =>
        refine .isFalse ?_
        rintro (h | ⟨m, h⟩) <;> cases h

/-! ## Shared helper lemmas -/

/-- On every failure outcome the weather tool body returns the `err`
shape. -/
lemma weatherExecute_failure_err (α : Type) (v : WeatherInput)
    (out : FetchOutcome α) (h : out.isFailure) :
    ∃ m, (weatherExecute α v out).2 = .err m := by
  cases out with
  | thrownError m => exact ⟨m, rfl⟩
  | thrownNonError => exact ⟨"Checking weather failed due to an unknown error.", rfl⟩
  | response ok status statusText body =>
    rcases h with hok | ⟨m, hb⟩
    · subst hok
      exact ⟨"Weather API error: " ++ toString status ++ " " ++ statusText, rfl⟩
    · subst hb
      cases ok with
      | false =>
        exact ⟨"Weather API error: " ++ toString status ++ " " ++ statusText, rfl⟩
      | true => exact ⟨m, rfl⟩

/-- Soundness of the schema embedding: a successful parse pins the
validated fields and certifies every range check the zod schema
performs. -/
lemma parse_ok_spec (r : RawWeatherInput) (v : WeatherInput)
    (hok : parseWeatherParams r = .ok v) :
    r.latitude = some v.latitude ∧ ¬(v.latitude < -90 ∨ 90 < v.latitude) ∧
    r.longitude = some v.longitude ∧ ¬(v.longitude < -180 ∨ 180 < v.longitude) ∧
    (r.forecast_days.getD 3).den = 1 ∧
    ¬(r.forecast_days.getD 3 < 1 ∨ 7 < r.forecast_days.getD 3) ∧
    v.forecast_days = (r.forecast_days.getD 3).num := by
  unfold parseWeatherParams at hok
  cases hlat : r.latitude with
  | none => rw [hlat] at hok; cases hok
  | some lat =>
    rw [hlat] at hok
    dsimp only at hok
    by_cases h1 : lat < -90 ∨ 90 < lat
    · rw [if_pos h1] at hok; cases hok
    · rw [if_neg h1] at hok
      cases hlon : r.longitude with
      | none => rw [hlon] at hok; cases hok
      | some lon =>
        rw [hlon] at hok
        dsimp only at hok
        by_cases h2 : lon < -180 ∨ 180 < lon
        · rw [if_pos h2] at hok; cases hok
        · rw [if_neg h2] at hok
          by_cases h3 : (r.forecast_days.getD 3).den ≠ 1
          · rw [if_pos h3] at hok; cases hok
          · rw [if_neg h3] at hok
            by_cases h4 : r.forecast_days.getD 3 < 1 ∨ 7 < r.forecast_days.getD 3
            · rw [if_pos h4] at hok; cases hok
            · rw [if_neg h4] at hok
              cases hd : r.daily with
              | none =>
                rw [hd] at hok
                dsimp only at hok
                cases hok
                exact ⟨rfl, h1, rfl, h2, not_not.mp h3, h4, rfl⟩
              | some vars =>
                rw [hd] at hok
                dsimp only at hok
                by_cases h5 : vars.all (fun x => decide (x ∈ WEATHER_VAR_ENUM))
                · rw [if_pos h5] at hok
                  cases hok
                  exact ⟨rfl, h1, rfl, h2, not_not.mp h3, h4, rfl⟩
                · rw [if_neg h5] at hok; cases hok

/-! ## Claim theorems -/

/-- C1: whenever `spawnSync` reports an error (the process could not be
started, timed out, or was cut off — exactly the cases where the source
takes the `result.error` branch), the returned result has no stdout,
stderr or exit-status field and its error field is populated; in every
other case the exit-status field is populated. -/
theorem C1_exec_result_invariant (o : SpawnOutcome) :
    (o.error.isSome →
      (analyzeExecute o).stdout = none ∧ (analyzeExecute o).stderr = none ∧
      (analyzeExecute o).exitCode = none ∧ (analyzeExecute o).error.isSome) ∧
    (o.error = none → (analyzeExecute o).exitCode.isSome) := by
  constructor
  · intro h
    obtain ⟨e, he⟩ := Option.isSome_iff_exists.mp h
    simp only [analyzeExecute, he]
    split <;> simp
  · intro h
    simp only [analyzeExecute, h]
    split <;> simp

/-- Witness for C1 at two concrete spawn outcomes: a launch failure and
a clean exit. -/
theorem C1_exec_result_invariant_witness :
    ((analyzeExecute ⟨some ⟨"ENOENT", "spawn python ENOENT"⟩, none, "", ""⟩).error).isSome ∧
    ((analyzeExecute ⟨none, some 0, "hi", ""⟩).exitCode).isSome :=
  ⟨((C1_exec_result_invariant ⟨some ⟨"ENOENT", "spawn python ENOENT"⟩, none, "", ""⟩).1
      rfl).2.2.2,
   (C1_exec_result_invariant ⟨none, some 0, "hi", ""⟩).2 rfl⟩

/-- C2 counterexample: on a non-zero exit the source sets the error
field to `"Python script exited with error"`, not to the claimed
`"script exited with error"`. -/
theorem C2_counterexample :
    (analyzeExecute ⟨none, some 1, "", "Traceback"⟩).error ≠
      some "script exited with error" ∧
    (analyzeExecute ⟨none, some 1, "", "Traceback"⟩).error =
      some "Python script exited with error" := by
  constructor <;> decide

/-- C2 (amended): when the process starts, does not time out, and exits
with a non-zero status, the result carries the captured stdout, the
captured stderr — replaced by the generic `"Unknown error occurred"`
exactly when it is empty — the non-zero exit status, and the error
description `"Python script exited with error"`. -/
theorem C2_nonzero_exit (o : SpawnOutcome) (herr : o.error = none) (c : ℤ)
    (hst : o.status = some c) (hc : c ≠ 0) :
    analyzeExecute o =
      { stdout := some o.stdout,
        stderr := some (if o.stderr = "" then "Unknown error occurred" else o.stderr),
        exitCode := some c,
        error := some "Python script exited with error" } := by
  simp [analyzeExecute, herr, hst, hc]

/-- Witness for C2 at a concrete outcome with empty stderr and exit
status 1. -/
theorem C2_nonzero_exit_witness :
    analyzeExecute ⟨none, some 1, "out", ""⟩ =
      { stdout := some "out", stderr := some "Unknown error occurred",
        exitCode := some 1, error := some "Python script exited with error" } := by
  simpa using C2_nonzero_exit ⟨none, some 1, "out", ""⟩ rfl 1 rfl (by decide)

/-- C3 counterexample: on timeout the source sets the error field to
`"Execution timed out (limit: 10 seconds)"` (capital E), not to the
claimed `"execution timed out (limit: 10 seconds)"`. -/
theorem C3_counterexample :
    (analyzeExecute ⟨some ⟨"ETIMEDOUT", "spawnSync python ETIMEDOUT"⟩, none, "", ""⟩).error ≠
      some "execution timed out (limit: 10 seconds)" ∧
    (analyzeExecute ⟨some ⟨"ETIMEDOUT", "spawnSync python ETIMEDOUT"⟩, none, "", ""⟩).error =
      some "Execution timed out (limit: 10 seconds)" := by
  constructor <;> decide

/-- C3 (amended): when the spawn call reports a timeout, the result's
only populated field is the error description, equal to
`"Execution timed out (limit: 10 seconds)"` — in particular it contains
`"timed out"` — with no output or exit-status fields. -/
theorem C3_timeout (o : SpawnOutcome) (h : o.timedOut) :
    analyzeExecute o =
      { stdout := none, stderr := none, exitCode := none,
        error := some "Execution timed out (limit: 10 seconds)" } ∧
    ∃ pre post, (analyzeExecute o).error = some (pre ++ "timed out" ++ post) := by
  obtain ⟨m, hm⟩ := h
  have heq : analyzeExecute o =
      { stdout := none, stderr := none, exitCode := none,
        error := some "Execution timed out (limit: 10 seconds)" } := by
    simp [analyzeExecute, hm]
  exact ⟨heq, "Execution ", " (limit: 10 seconds)", by rw [heq]; rfl⟩

/-- Witness for C3 at a concrete timed-out spawn outcome. -/
theorem C3_timeout_witness :
    analyzeExecute ⟨some ⟨"ETIMEDOUT", "spawnSync python ETIMEDOUT"⟩, none, "", ""⟩ =
      { stdout := none, stderr := none, exitCode := none,
        error := some "Execution timed out (limit: 10 seconds)" } :=
  (C3_timeout ⟨some ⟨"ETIMEDOUT", "spawnSync python ETIMEDOUT"⟩, none, "", ""⟩
    ⟨"spawnSync python ETIMEDOUT", rfl⟩).1

/-- C4: when the process starts, does not time out, and exits with
status 0, the result carries exit status 0, the captured stdout exactly
as written, and the captured stderr unmodified (no generic-message
substitution even when empty), with no error field. -/
theorem C4_success (o : SpawnOutcome) (herr : o.error = none)
    (hst : o.status = some 0) :
    analyzeExecute o =
      { stdout := some o.stdout, stderr := some o.stderr,
        exitCode := some 0, error := none } := by
  simp [analyzeExecute, herr, hst]

/-- Witness for C4 at a concrete clean run with empty stderr: the empty
stderr is returned as the empty string, not replaced. -/
theorem C4_success_witness :
    analyzeExecute ⟨none, some 0, "hello\n", ""⟩ =
      { stdout := some "hello\n", stderr := some "",
        exitCode := some 0, error := none } :=
  C4_success ⟨none, some 0, "hello\n", ""⟩ rfl rfl

/-- C5: both tool bodies are total functions of the environment outcome
(the shallow embedding of "no exception propagates to the caller":
every path of the source returns a value through the tool's
try/catch), and on every failure outcome the returned structured result
carries an error description. -/
theorem C5_structured_failures :
    (∀ o : SpawnOutcome, o.error.isSome ∨ o.status ≠ some 0 →
      (analyzeExecute o).error.isSome) ∧
    (∀ (α : Type) (v : WeatherInput) (out : FetchOutcome α), out.isFailure →
      ∃ m, (weatherExecute α v out).2 = .err m) := by
  constructor
  · intro o h
    match he : o.error with
    | some e => simp only [analyzeExecute, he]; split <;> simp
    | none =>
      have hst : o.status ≠ some 0 := by
        rcases h with h | h
        · rw [he] at h; cases h
        · exact h
      simp [analyzeExecute, he, hst]
  · exact weatherExecute_failure_err

/-- Witness for C5 at a concrete failed spawn and a concrete rejected
fetch. -/
theorem C5_structured_failures_witness :
    ((analyzeExecute ⟨none, some 2, "", "boom"⟩).error).isSome ∧
    ∃ m, (weatherExecute String ⟨1, 2, 3, none⟩ (.thrownError "fetch failed")).2 = .err m :=
  ⟨C5_structured_failures.1 ⟨none, some 2, "", "boom"⟩ (Or.inr (by decide)),
   C5_structured_failures.2 String ⟨1, 2, 3, none⟩ (.thrownError "fetch failed") trivial⟩

/-- C6: every call of the weather tool body issues exactly one GET whose
query carries the latitude, longitude, day count, `timezone=auto` and
the comma-joined effective variable list; a 2xx response with parseable
JSON yields `{source := "open-meteo", echoed query, units from
`daily_units` or null, daily values from `daily` or null}`; every
failure outcome yields an error description instead. -/
theorem C6_forecast_request_response (α : Type) (v : WeatherInput)
    (out : FetchOutcome α) :
    (weatherExecute α v out).1 =
      [⟨v.latitude, v.longitude, v.forecast_days, "auto",
        String.intercalate "," (effectiveDailyVars v.daily)⟩] ∧
    (∀ status statusText data,
      out = .response true status statusText (.ok data) →
      (weatherExecute α v out).2 =
        .ok "open-meteo"
          ⟨v.latitude, v.longitude, v.forecast_days, effectiveDailyVars v.daily⟩
          data.daily_units data.daily) ∧
    (out.isFailure → ∃ m, (weatherExecute α v out).2 = .err m) := by
  refine ⟨?_, ?_, weatherExecute_failure_err α v out⟩
  · cases out with
    | thrownError m => rfl
    | thrownNonError => rfl
    | response ok status statusText body =>
      cases ok <;> cases body <;> rfl
  · intro status statusText data hout
    subst hout
    rfl

/-- Witness for C6's conditional parts at a concrete 2xx response. -/
theorem C6_forecast_request_response_witness :
    (weatherExecute String ⟨35, 139, 3, none⟩
        (.response true 200 "OK" (.ok ⟨some "u", some "d"⟩))).2 =
      .ok "open-meteo" ⟨35, 139, 3, DEFAULT_DAILY_VARS⟩ (some "u") (some "d") :=
  (C6_forecast_request_response String ⟨35, 139, 3, none⟩
      (.response true 200 "OK" (.ok ⟨some "u", some "d"⟩))).2.1
    200 "OK" ⟨some "u", some "d"⟩ rfl

/-- C9: a spawn outcome reporting that the 10 MiB `maxBuffer` ceiling
was exceeded takes the generic spawn-error branch: the call returns a
structured result whose error field is `Execution failed: <message>`
and which carries no output or exit-status fields. -/
theorem C9_buffer_exceeded (o : SpawnOutcome) (h : o.bufferExceeded) :
    (∃ m, (analyzeExecute o).error = some ("Execution failed: " ++ m)) ∧
    (analyzeExecute o).stdout = none ∧ (analyzeExecute o).stderr = none ∧
    (analyzeExecute o).exitCode = none := by
  obtain ⟨m, hm⟩ := h
  have hne : ("ENOBUFS" : String) ≠ "ETIMEDOUT" := by decide
  refine ⟨⟨m, ?_⟩, ?_, ?_, ?_⟩ <;> simp [analyzeExecute, hm, hne]

/-- Witness for C9 at a concrete buffer-exceeded spawn outcome. -/
theorem C9_buffer_exceeded_witness :
    (∃ m, (analyzeExecute ⟨some ⟨"ENOBUFS", "spawnSync python ENOBUFS"⟩, none, "", ""⟩).error =
      some ("Execution failed: " ++ m)) ∧
    (analyzeExecute ⟨some ⟨"ENOBUFS", "spawnSync python ENOBUFS"⟩, none, "", ""⟩).stdout = none ∧
    (analyzeExecute ⟨some ⟨"ENOBUFS", "spawnSync python ENOBUFS"⟩, none, "", ""⟩).stderr = none ∧
    (analyzeExecute ⟨some ⟨"ENOBUFS", "spawnSync python ENOBUFS"⟩, none, "", ""⟩).exitCode = none :=
  C9_buffer_exceeded ⟨some ⟨"ENOBUFS", "spawnSync python ENOBUFS"⟩, none, "", ""⟩
    ⟨"spawnSync python ENOBUFS", rfl⟩

/-- C10: supplying the variable list as the empty list is
indistinguishable from omitting it — the tool body produces the same
trace and the same result — and the single GET issued carries the
comma-joined five-variable default list, never an empty `daily`
parameter. -/
theorem C10_empty_daily_equals_omitted (α : Type) (lat lon : ℚ) (fd : ℤ)
    (out : FetchOutcome α) :
    weatherExecute α ⟨lat, lon, fd, some []⟩ out =
      weatherExecute α ⟨lat, lon, fd, none⟩ out ∧
    effectiveDailyVars (some []) = DEFAULT_DAILY_VARS ∧
    (weatherExecute α ⟨lat, lon, fd, some []⟩ out).1 =
      [⟨lat, lon, fd, "auto", String.intercalate "," DEFAULT_DAILY_VARS⟩] := by
  refine ⟨?_, rfl, ?_⟩
  · cases out with
    | thrownError m => rfl
    | thrownNonError => rfl
    | response ok status statusText body => cases ok <;> cases body <;> rfl
  · cases out with
    | thrownError m => rfl
    | thrownNonError => rfl
    | response ok status statusText body => cases ok <;> cases body <;> rfl

/-- C7: when the request omits `forecast_days`, the validated input's
day count is the schema default 3; when the request omits `daily`, the
effective variable list is exactly the five-variable default
`temperature_2m_max, temperature_2m_min, precipitation_sum,
windspeed_10m_max, weathercode`. -/
theorem C7_defaults :
    (∀ (r : RawWeatherInput) (v : WeatherInput), r.forecast_days = none →
      parseWeatherParams r = .ok v → v.forecast_days = 3) ∧
    effectiveDailyVars none =
      ["temperature_2m_max", "temperature_2m_min", "precipitation_sum",
       "windspeed_10m_max", "weathercode"] := by
  refine ⟨?_, rfl⟩
  intro r v h hok
  have hnum := (parse_ok_spec r v hok).2.2.2.2.2.2
  rw [h] at hnum
  simpa using hnum

/-- Witness for C7 at a concrete request omitting both optional
fields. -/
theorem C7_defaults_witness :
    parseWeatherParams ⟨some 35, some 139, none, none⟩ = .ok ⟨35, 139, 3, none⟩ ∧
    (⟨35, 139, 3, none⟩ : WeatherInput).forecast_days = 3 :=
  have h : parseWeatherParams ⟨some 35, some 139, none, none⟩ = .ok ⟨35, 139, 3, none⟩ := by
    rfl
  ⟨h, C7_defaults.1 ⟨some 35, some 139, none, none⟩ ⟨35, 139, 3, none⟩ rfl h⟩

/-- C8: a request with latitude outside `[-90, 90]`, longitude outside
`[-180, 180]`, or a `forecast_days` that is non-integral or outside
`[1, 7]` is rejected by the schema, and the rejected invocation issues
no GET request. -/
theorem C8_schema_rejects_out_of_range (α : Type) (r : RawWeatherInput)
    (out : FetchOutcome α)
    (h : (∃ lat, r.latitude = some lat ∧ (lat < -90 ∨ 90 < lat)) ∨
         (∃ lon, r.longitude = some lon ∧ (lon < -180 ∨ 180 < lon)) ∨
         (∃ fd, r.forecast_days = some fd ∧ (fd.den ≠ 1 ∨ fd < 1 ∨ 7 < fd))) :
    (∃ e, parseWeatherParams r = .error e) ∧ (runWeatherTool α r out).1 = [] := by
  have herr : ∃ e, parseWeatherParams r = .error e := by
    cases hp : parseWeatherParams r with
    | error e => exact ⟨e, rfl⟩
    | ok v =>
      exfalso
      obtain ⟨hlat, h1, hlon, h2, h3, h4, _⟩ := parse_ok_spec r v hp
      rcases h with ⟨lat, hl, hrange⟩ | ⟨lon, hl, hrange⟩ | ⟨fd, hf, hbad⟩
      · rw [hl] at hlat
        injection hlat with he
        exact h1 (he ▸ hrange)
      · rw [hl] at hlon
        injection hlon with he
        exact h2 (he ▸ hrange)
      · rw [hf] at h3 h4
        simp only [Option.getD_some] at h3 h4
        rcases hbad with hb | hb | hb
        · exact hb h3
        · exact h4 (Or.inl hb)
        · exact h4 (Or.inr hb)
  obtain ⟨e, he⟩ := herr
  exact ⟨⟨e, he⟩, by simp [runWeatherTool, he]⟩

/-- Witness for C8 at a concrete request with latitude 200. -/
theorem C8_schema_rejects_out_of_range_witness :
    (∃ e, parseWeatherParams ⟨some 200, some 0, none, none⟩ = .error e) ∧
    (runWeatherTool String ⟨some 200, some 0, none, none⟩ .thrownNonError).1 = [] :=
  C8_schema_rejects_out_of_range String ⟨some 200, some 0, none, none⟩ .thrownNonError
    (Or.inl ⟨200, rfl, Or.inr (by norm_num)⟩)

end SoranoTools
